import Mathlib

/-
  Verification of the token-janitor selection-and-batch-action pipeline
  (src/tools/pi-token-janitor.py) against its specification.

  The embedding translates the source functions into Lean definitions:
  comparator closures become Lean functions of type PyValue to Except,
  raised Python exceptions become Except.error values, the per-record
  loops become structural recursions over lists, and text written to the
  two process output channels is collected into explicit write lists.
  External collaborators that are not part of the repository (the record
  store and its pagination, the regex engine, the dateutil parser) are
  modelled where noted in the doc comments.
-/

namespace Janitor

/-- Python exceptions that the embedded code can raise. -/
inductive PyError where
  | clickException (msg : String)
  | typeError
  | attributeError
  | indexError
  | nameError (var : String)
  deriving DecidableEq

/-- A value stored in a token field: the database yields strings for
tokeninfo values, and integers or booleans for some token columns. -/
inductive PyValue where
  | intV (n : Int)
  | boolV (b : Bool)
  | strV (s : String)
  deriving DecidableEq

/-- Whitespace characters matched by the regex class backslash-s in Python. -/
def isPySpace (c : Char) : Bool :=
  c = ' ' || c = '\t' || c = '\n' || c = '\r' || c = '\x0b' || c = '\x0c'

/-- Value of a nonempty all-digit character list, none otherwise. -/
def digitsVal (cs : List Char) : Option Nat :=
  if !cs.isEmpty && cs.all Char.isDigit then
    some (cs.foldl (fun a c => a * 10 + (c.toNat - 48)) 0)
  else none

/-- Sign handling of Python integer parsing. -/
def pyIntCore : List Char → Option Int
  | '+' :: rest => (digitsVal rest).map (fun n => (n : Int))
  | '-' :: rest => (digitsVal rest).map (fun n => -(n : Int))
  | cs => (digitsVal cs).map (fun n => (n : Int))

/-- Embedding of the Python builtin int applied to a string: surrounding
whitespace is ignored, an optional sign precedes decimal digits; none
models the ValueError raised on any other input. -/
def pyInt (s : String) : Option Int :=
  pyIntCore ((s.toList.dropWhile isPySpace).reverse.dropWhile isPySpace).reverse

/-- Embedding of the Python builtin int applied to a stored field value:
integers pass through, True and False coerce to 1 and 0, strings are
parsed; none models the ValueError on unparsable strings. -/
def pyIntValue : PyValue → Option Int
  | .intV n => some n
  | .boolV b => some (if b then 1 else 0)
  | .strV s => pyInt s

/-- A compiled comparator closure: evaluation may raise, which the
source relies on never happening for well-behaved comparators. -/
abbrev Comparator := PyValue → Except PyError Bool

/-- Source lines 121-125: int conversion of a user-supplied operand,
raising ClickException on failure. -/
def try_convert_to_integer (s : String) : Except PyError Int :=
  match pyInt s with
  | some n => .ok n
  | none => .error (.clickException ("Not an integer: " ++ s))

/-- Source lines 128-141: build the greater-than comparator. The operand
is coerced once at construction time; at evaluation time a field value
that fails int coercion makes the comparator return false (the source
catches ValueError and returns False). -/
def compare_greater_than (_key : String) (given_value_string : String) :
    Except PyError Comparator :=
  match try_convert_to_integer given_value_string with
  | .error e => .error e
  | .ok given_value => .ok (fun value =>
      match pyIntValue value with
      | some n => .ok (decide (n > given_value))
      | none => .ok false)

/-- Source lines 144-157: build the less-than comparator, symmetric to
compare_greater_than. -/
def compare_less_than (_key : String) (given_value_string : String) :
    Except PyError Comparator :=
  match try_convert_to_integer given_value_string with
  | .error e => .error e
  | .ok given_value => .ok (fun value =>
      match pyIntValue value with
      | some n => .ok (decide (n < given_value))
      | none => .ok false)

/-- Modelled from the spec: instants on the timeline are abstracted as
integers; this stands for the timezone-aware datetime values produced by
the external dateutil parser. -/
abbrev Instant := Int

/-- Modelled from the spec: the external dateutil parser, which turns a
string into an instant or raises ValueError (none). The model parses the
instant written as a decimal integer. -/
def dateutilParse (s : String) : Option Instant := pyInt s

/-- Modelled from the spec: the external legacy-time normalizer
parse_legacy_time, abstracted as the identity on instant strings. -/
def parse_legacy_time (s : String) : String := s

/-- Modelled from the spec: the name of the last-authentication field
(ACTION.LASTAUTH in the external policy module). -/
def ACTION_LASTAUTH : String := "last_auth"

/-- Source lines 160-169: parse a stored datetime string. For the
last-authentication field legacy zoneless values are reparsed as UTC,
other fields go through parse_legacy_time; in the abstract instant model
both branches yield the instant by dateutilParse. none models the
ValueError that the comparators catch. -/
def parse_datetime (key : String) (value : String) : Option Instant :=
  if key == ACTION_LASTAUTH then
    dateutilParse value
  else
    dateutilParse (parse_legacy_time value)

/-- Source lines 172-180: datetime conversion of a user-supplied
operand, raising ClickException on failure. -/
def try_convert_to_datetime (s : String) : Except PyError Instant :=
  match dateutilParse s with
  | some t => .ok t
  | none => .error (.clickException ("Not a valid datetime format: " ++ s))

/-- Source lines 183-196: build the after comparator. The operand is
coerced once at construction; at evaluation a string field value is
parsed with parse_datetime and a parse failure returns false (the source
catches ValueError). A non-string field value reaches the external
parser, which raises TypeError, and TypeError is not caught. -/
def compare_after (key : String) (given_value_string : String) :
    Except PyError Comparator :=
  match try_convert_to_datetime given_value_string with
  | .error e => .error e
  | .ok given_value => .ok (fun value =>
      match value with
      | .strV s =>
        match parse_datetime key s with
        | some t => .ok (decide (t > given_value))
        | none => .ok false
      | _ => .error .typeError)

/-- Source lines 199-212: build the before comparator, symmetric to
compare_after. -/
def compare_before (key : String) (given_value_string : String) :
    Except PyError Comparator :=
  match try_convert_to_datetime given_value_string with
  | .error e => .error e
  | .ok given_value => .ok (fun value =>
      match value with
      | .strV s =>
        match parse_datetime key s with
        | some t => .ok (decide (t < given_value))
        | none => .ok false
      | _ => .error .typeError)

/-- Helper: does the second character list start with the first. -/
def startsWithChars : List Char → List Char → Bool
  | [], _ => true
  | _ :: _, [] => false
  | p :: ps, c :: cs => p = c && startsWithChars ps cs

/-- Helper: does the pattern occur as a contiguous run in the list. -/
def containsChars (pat : List Char) : List Char → Bool
  | [] => pat.isEmpty
  | c :: cs => startsWithChars pat (c :: cs) || containsChars pat cs

/-- Modelled from the spec: the external regex engine, restricted to
literal patterns; re.search succeeds exactly when the pattern occurs as
a substring of the target. -/
def reSearch (pattern s : String) : Bool :=
  containsChars pattern.toList s.toList

/-- Source lines 215-225: build the equal-or-regex comparator. When the
stored value is an integer or boolean the user operand is converted to
an integer at evaluation time, so an unconvertible operand raises
ClickException during evaluation; string values are regex-searched. -/
def compare_regex_or_equal (_key : String) (given_regex : String) :
    Except PyError Comparator :=
  .ok (fun value =>
    match value with
    | .intV n =>
      match try_convert_to_integer given_regex with
      | .error e => .error e
      | .ok given_value => .ok (decide (given_value = n))
    | .boolV b =>
      match try_convert_to_integer given_regex with
      | .error e => .error e
      | .ok given_value => .ok (decide (given_value = (if b then 1 else 0)))
    | .strV s => .ok (reSearch given_regex s))

/-- Source lines 228-262: build_tokenvalue_filter collects the active
comparators in a fixed order; construction failures propagate. An option
participates when it is a nonempty string (Python truthiness). -/
def build_tokenvalue_filter (key : String)
    (tokeninfo_value tv_greater_than tv_less_than tv_after tv_before : Option String) :
    Except PyError (List Comparator) := do
  let add (builder : String → String → Except PyError Comparator)
      (o : Option String) : Except PyError (List Comparator) :=
    match o with
    | some v => if v = "" then .ok [] else (builder key v).map (fun c => [c])
    | none => .ok []
  let f1 ← add compare_regex_or_equal tokeninfo_value
  let f2 ← add compare_greater_than tv_greater_than
  let f3 ← add compare_less_than tv_less_than
  let f4 ← add compare_after tv_after
  let f5 ← add compare_before tv_before
  return f1 ++ f2 ++ f3 ++ f4 ++ f5

/-- A token record as seen by the selection loop: the structural
attributes read by the source, the tokeninfo side table, the token
column table, the externally computed last-authentication recency test
(modelled from the spec: check_last_auth_newer is a method of the
external token class and returns true when the last authentication is
newer than the given age threshold), and the externally computed orphan
state. -/
structure Token where
  serial : String
  description : String
  tokeninfo : List (String × PyValue)
  attrs : List (String × PyValue)
  lastAuthNewer : String → Bool
  isOrphaned : Bool

/-- Lookup in the tokeninfo side table, the embedding of
token_obj.get_tokeninfo(key) whose default is None. -/
def tokeninfoLookup (t : Token) (k : String) : Option PyValue :=
  (t.tokeninfo.find? (fun p => p.1 == k)).map Prod.snd

/-- Membership of a key in the tokeninfo side table, the embedding of
the Python membership test on token_obj.get_tokeninfo(). -/
def hasTokeninfo (t : Token) (k : String) : Bool :=
  (tokeninfoLookup t k).isSome

/-- Lookup of a token column value, the embedding of
token_obj.token.get(attribute). -/
def attrLookup (t : Token) (k : String) : Option PyValue :=
  (t.attrs.find? (fun p => p.1 == k)).map Prod.snd

/-- The selection options of the find command that the filter loop in
get_tokenlist consults record by record. -/
structure FindOpts where
  lastAuth : Option String := none
  serial : Option String := none
  description : Option String := none
  hasNotTokeninfoKey : Option String := none
  hasTokeninfoKey : Option String := none
  tokeninfoKey : Option String := none
  tokenattribute : Option String := none
  orphaned : Option String := none

/-- Python truthiness of an optional string: present and nonempty. -/
def truthyO : Option String → Bool
  | none => false
  | some s => !(s == "")

/-- Python truthiness of a list: nonempty. -/
def truthyL (l : List Comparator) : Bool := !l.isEmpty

/-- Uppercase one ASCII character. -/
def pyUpperChar (c : Char) : Char :=
  if c.isLower then Char.ofNat (c.toNat - 32) else c

/-- Python str.upper restricted to ASCII, used on the orphaned flag. -/
def pyUpper (s : String) : String := String.mk (s.toList.map pyUpperChar)

/-- The built-in checks of the filter loop, in the order the source
consults them. The two orphaned guards of the source (lines 325-328)
form one orphan-state check. -/
inductive CheckTag where
  | recency
  | serialPat
  | descrPat
  | hasNotKey
  | hasKey
  | valueFilter
  | attrFilter
  | orphanState
  deriving DecidableEq

/-- Source line 317: all(comparator(value) for comparator in filter),
evaluated left to right, stopping at the first False; an exception
raised by a comparator propagates. -/
def allME (fs : List Comparator) (v : PyValue) : Except PyError Bool :=
  match fs with
  | [] => .ok true
  | c :: rest =>
    match c v with
    | .error e => .error e
    | .ok b => if b then allME rest v else .ok false

/-- Source lines 308-318: the tokeninfo value-filter check. Active when
the filter list and the declared key are both truthy; a record whose
key is unset fails the check before any comparator is consulted. -/
def valueCheckResult (o : FindOpts) (fs : List Comparator) (t : Token) :
    Except PyError Bool :=
  if truthyL fs && truthyO o.tokeninfoKey then
    match tokeninfoLookup t (o.tokeninfoKey.getD "") with
    | none => .ok false
    | some v => allME fs v
  else .ok true

/-- Source lines 319-324: the token-attribute filter check, the column
analogue of valueCheckResult. -/
def attrCheckResult (o : FindOpts) (afs : List Comparator) (t : Token) :
    Except PyError Bool :=
  if truthyL afs && truthyO o.tokenattribute then
    match attrLookup t (o.tokenattribute.getD "") with
    | none => .ok false
    | some v => allME afs v
  else .ok true

/-- Source lines 325-328: the two orphaned guards merged into one
pass-or-fail check; orphaned is defaulted to the empty string first
(line 270). -/
def orphanPass (o : FindOpts) (t : Token) : Bool :=
  let orph := pyUpper (o.orphaned.getD "")
  !(((orph == "1" || orph == "TRUE") && !t.isOrphaned) ||
    ((orph == "0" || orph == "FALSE") && t.isOrphaned))

/-- The guard sequence of the filter loop body (source lines 295-328),
one entry per check in source order; a pure guard is wrapped in ok and
passes when its continue condition is false. -/
def checksOf (o : FindOpts) (fs afs : List Comparator) (t : Token) :
    List (CheckTag × Except PyError Bool) :=
  [(.recency, .ok (!(truthyO o.lastAuth && t.lastAuthNewer (o.lastAuth.getD "")))),
   (.serialPat, .ok (!(truthyO o.serial && !reSearch (o.serial.getD "") t.serial))),
   (.descrPat, .ok (!(truthyO o.description && !reSearch (o.description.getD "") t.description))),
   (.hasNotKey, .ok (!(truthyO o.hasNotTokeninfoKey && hasTokeninfo t (o.hasNotTokeninfoKey.getD "")))),
   (.hasKey, .ok (!(truthyO o.hasTokeninfoKey && !hasTokeninfo t (o.hasTokeninfoKey.getD "")))),
   (.valueFilter, valueCheckResult o fs t),
   (.attrFilter, attrCheckResult o afs t),
   (.orphanState, .ok (orphanPass o t))]

/-- Run the guard sequence with the continue semantics of the loop
body: the first failing check excludes the record and no later check is
consulted; a raising check propagates. The returned list records the
checks that were consulted, in order. -/
def runChecks : List (CheckTag × Except PyError Bool) → Except PyError (Bool × List CheckTag)
  | [] => .ok (true, [])
  | (tag, g) :: rest =>
    match g with
    | .error e => .error e
    | .ok true =>
      match runChecks rest with
      | .error e => .error e
      | .ok (b, tr) => .ok (b, tag :: tr)
    | .ok false => .ok (false, [tag])

/-- One record of the filter loop body: does the record match all
active conditions. The trace component lists the consulted checks. -/
def tokenCheckE (o : FindOpts) (fs afs : List Comparator) (t : Token) :
    Except PyError (Bool × List CheckTag) :=
  runChecks (checksOf o fs afs t)

/-- The match decision alone. -/
def tokenMatchesE (o : FindOpts) (fs afs : List Comparator) (t : Token) :
    Except PyError Bool :=
  (tokenCheckE o fs afs t).map Prod.fst

/-- The filter loop over one batch, keeping the matching records in
their original order (source lines 291-332, writes omitted). -/
def selectBatchE (o : FindOpts) (fs afs : List Comparator) :
    List Token → Except PyError (List Token)
  | [] => .ok []
  | t :: ts =>
    match tokenMatchesE o fs afs t with
    | .error e => .error e
    | .ok true =>
      match selectBatchE o fs afs ts with
      | .error e => .error e
      | .ok l => .ok (t :: l)
    | .ok false => selectBatchE o fs afs ts

/-- The output channels of the process. -/
inductive Chan where
  | stdout
  | stderr
  deriving DecidableEq

/-- One line of text sent to one channel. -/
structure Write where
  chan : Chan
  text : String
  deriving DecidableEq

/-- Source lines 291-336: the filter loop over one batch together with
its progress telemetry; the per-record progress counter is written to
the error stream before the record is checked, and the closing counter
and completion notice follow the loop. -/
def scanLoop (o : FindOpts) (fs afs : List Comparator) :
    List Token → Nat → Nat → Except PyError (List Token) × List Write
  | [], cnt, fnd =>
    (.ok [],
     [⟨.stderr, toString cnt ++ " Tokens processed / " ++ toString fnd ++ " Tokens found\r\n"⟩,
      ⟨.stderr, "++ Token object list created.\n"⟩])
  | t :: ts, cnt, fnd =>
    let w : Write := ⟨.stderr, toString cnt ++ " Tokens processed / " ++ toString fnd ++ " Tokens found\r"⟩
    match tokenMatchesE o fs afs t with
    | .error e => (.error e, [w])
    | .ok true =>
      let r := scanLoop o fs afs ts (cnt + 1) (fnd + 1)
      ((match r.1 with
        | .error e => .error e
        | .ok l => .ok (t :: l)), w :: r.2)
    | .ok false =>
      let r := scanLoop o fs afs ts (cnt + 1) fnd
      (r.1, w :: r.2)

/-- The full write list of one batch of the scan, the header included
(source line 288). -/
def scanChunkWrites (o : FindOpts) (fs afs : List Comparator) (batch : List Token) :
    List Write :=
  ⟨.stderr, "++ Creating token object list.\n"⟩ :: (scanLoop o fs afs batch 0 0).2

/-- Fuel-driven chunking helper; with fuel at least the list length and
a positive chunk size it produces the chunks in order. -/
def chunksOfAux (k : Nat) : Nat → List Token → List (List Token)
  | _, [] => []
  | 0, _ => []
  | fuel + 1, xs => xs.take k :: chunksOfAux k fuel (xs.drop k)

/-- Modelled from the spec: get_tokens_paginated_generator yields the
structurally filtered records of the store in successive batches of at
most psize records, in store order, one store round trip per batch. -/
def get_tokens_paginated_generator (store : List Token) (psize : Nat) :
    List (List Token) :=
  chunksOfAux psize store.length store

/-- Modelled from the spec: get_tokens fetches the entire structurally
filtered result set as one batch. -/
def get_tokens (store : List Token) : List Token := store

/-- Map a fallible function over a list, stopping at the first error,
the way a loop stops when an uncaught exception is raised. -/
def mapME {ε α β : Type} (f : α → Except ε β) : List α → Except ε (List β)
  | [] => .ok []
  | a :: rest =>
    match f a with
    | .error e => .error e
    | .ok b =>
      match mapME f rest with
      | .error e => .error e
      | .ok bs => .ok (b :: bs)

/-- Source lines 277-337: get_tokenlist fetches either one unbounded
batch or fixed-size chunks and yields the filtered list of each batch.
The structural store-side filters are already applied in the given
store list. -/
def getTokenlist (o : FindOpts) (fs afs : List Comparator) (store : List Token)
    (chunksize : Option Nat) : Except PyError (List (List Token)) :=
  match chunksize with
  | some k =>
    mapME (fun batch => (scanLoop o fs afs batch 0 0).1)
      (get_tokens_paginated_generator store k)
  | none =>
    mapME (fun batch => (scanLoop o fs afs batch 0 0).1) [get_tokens store]

/-- Per-record result of a mutating action: the serial of the record,
whether the state change succeeded, and the reported detail. -/
structure Outcome where
  serial : String
  success : Bool
  detail : String
  deriving DecidableEq

/-- The shared per-record shape of the caught mutating actions
(disable, delete, unassign): call the external state change inside the
try block; a success prints the progress message, a caught exception is
recorded as a failed outcome (source lines 599-644). -/
def perRecordCaught (progressMsg : String) (op : Token → Except String Unit)
    (t : Token) : Outcome :=
  match op t with
  | .ok _ => ⟨t.serial, true, progressMsg ++ t.serial⟩
  | .error e => ⟨t.serial, false, e⟩

/-- The writes the action loop emits for one outcome: the progress
message on success, the two failure lines otherwise; every line goes to
standard output because the source uses print. -/
def outcomeWrites (oc : Outcome) : List Write :=
  if oc.success then [⟨.stdout, oc.detail ++ "\n"⟩]
  else
    [⟨.stdout, "Failed to process token " ++ oc.serial ++ ".\n"⟩,
     ⟨.stdout, oc.detail ++ "\n"⟩]

/-- Source lines 599-612: the disable action over the generator of
matched batches; enable_token is the external state change. -/
def runDisableOutcomes (enable_token : Token → Except String Unit)
    (gen : List (List Token)) : List Outcome :=
  gen.flatten.map (perRecordCaught "Disabling token " enable_token)

/-- The write stream of the disable action. -/
def runDisable (enable_token : Token → Except String Unit)
    (gen : List (List Token)) : List Write :=
  ((runDisableOutcomes enable_token gen).map outcomeWrites).flatten

/-- Source lines 615-628: the delete action; remove_token is the
external state change. -/
def runDeleteOutcomes (remove_token : Token → Except String Unit)
    (gen : List (List Token)) : List Outcome :=
  gen.flatten.map (perRecordCaught "Deleting token " remove_token)

/-- Source lines 631-644: the unassign action; unassign_token is the
external state change. -/
def runUnassignOutcomes (unassign_token : Token → Except String Unit)
    (gen : List (List Token)) : List Outcome :=
  gen.flatten.map (perRecordCaught "Unassigning token " unassign_token)

/-- Source lines 582-596: the tokenrealms action. Inside the per-record
try block the source evaluates tokenrealms.split(","), but tokenrealms
names the enclosing command function, not a string, so every record
raises AttributeError; the except clause catches it and reports the
record as failed, and the loop continues. -/
def tokenrealmsStep (t : Token) : List Write :=
  [⟨.stdout, "Failed to process token " ++ t.serial ++ ".\n"⟩,
   ⟨.stdout, "AttributeError: function object has no attribute split\n"⟩]

/-- The write stream of the tokenrealms action. -/
def runTokenrealms (gen : List (List Token)) : List Write :=
  (gen.flatten.map tokenrealmsStep).flatten

/-- Source lines 647-659: one record of the set_description action.
There is no try block: an error from the external set_description or
save call propagates. The description option is truthiness-checked per
record; the progress line is printed before the state change. -/
def setDescriptionStep (setDesc save : Token → Except String Unit)
    (descr : Option String) (t : Token) : Except String (List Write) :=
  if truthyO descr then
    match setDesc t with
    | .error e => .error e
    | .ok _ =>
      match save t with
      | .error e => .error e
      | .ok _ =>
        .ok [⟨.stdout, "Setting description for token " ++ t.serial ++ ": " ++ descr.getD "" ++ "\n"⟩]
  else .ok []

/-- The set_description action over the generator: the first per-record
error aborts the run with the remaining records unprocessed. -/
def runSetDescription (setDesc save : Token → Except String Unit)
    (descr : Option String) (gen : List (List Token)) : Except String (List Write) :=
  (mapME (setDescriptionStep setDesc save descr) gen.flatten).map List.flatten

/-- Helper for pySplit: cut a character list at every separator. -/
def splitOnCharAux (sep : Char) : List Char → List Char → List (List Char)
  | [], acc => [acc.reverse]
  | c :: cs, acc =>
    if c = sep then acc.reverse :: splitOnCharAux sep cs []
    else splitOnCharAux sep cs (c :: acc)

/-- Python str.split on a one-character separator: an empty string
yields the singleton list holding the empty string, the way Python
does. -/
def pySplit (s : String) (sep : Char) : List String :=
  (splitOnCharAux sep s.toList []).map String.mk

/-- Source lines 662-679: one record of the set_tokeninfo action for
one key-value pair; again no try block, so errors from add_tokeninfo or
save propagate. -/
def setTokeninfoStep (addTokeninfo : Token → String → String → Except String Unit)
    (save : Token → Except String Unit) (tiValue tiKey : String) (t : Token) :
    Except String (List Write) :=
  if !(tiValue == "") && !(tiKey == "") then
    match addTokeninfo t tiKey tiValue with
    | .error e => .error e
    | .ok _ =>
      match save t with
      | .error e => .error e
      | .ok _ =>
        .ok [⟨.stdout, "Setting tokeninfo for token " ++ t.serial ++ ": " ++ tiKey ++ "=" ++ tiValue ++ "\n"⟩]
  else .ok []

/-- Source lines 662-679: the set_tokeninfo action. The option string
is split on commas; each piece is split on a colon with x[0] the value
and x[1] the key, and a piece without a colon raises an uncaught
IndexError; per-record errors also propagate and abort the run. -/
def runSetTokeninfo (addTokeninfo : Token → String → String → Except String Unit)
    (save : Token → Except String Unit) (tokeninfo : String)
    (gen : List (List Token)) : Except String (List Write) :=
  (mapME (fun tlist =>
    (mapME (fun piece =>
      let x := pySplit piece ':'
      match x.get? 0, x.get? 1 with
      | some tiv, some tik =>
        (mapME (setTokeninfoStep addTokeninfo save tiv tik) tlist).map List.flatten
      | _, _ => .error "IndexError: list index out of range")
      (pySplit tokeninfo ',')).map List.flatten)
    gen).map List.flatten

/-- Source lines 682-696: one record of the delete_tokeninfo action;
no try block, errors from del_tokeninfo or save propagate. -/
def deleteTokeninfoStep (delTokeninfo : Token → String → Except String Unit)
    (save : Token → Except String Unit) (ti : String) (t : Token) :
    Except String (List Write) :=
  if !(ti == "") then
    match delTokeninfo t ti with
    | .error e => .error e
    | .ok _ =>
      match save t with
      | .error e => .error e
      | .ok _ =>
        .ok [⟨.stdout, "Deleting tokeninfo for token " ++ t.serial ++ ": " ++ ti ++ "\n"⟩]
  else .ok []

/-- Source lines 682-696: the delete_tokeninfo action; the first
per-record error aborts the run. -/
def runDeleteTokeninfo (delTokeninfo : Token → String → Except String Unit)
    (save : Token → Except String Unit) (tokeninfo : String)
    (gen : List (List Token)) : Except String (List Write) :=
  (mapME (fun tlist =>
    (mapME (fun ti =>
      (mapME (deleteTokeninfoStep delTokeninfo save ti) tlist).map List.flatten)
      (pySplit tokeninfo ',')).map List.flatten)
    gen).map List.flatten

/-- Embedding of re.match for the fixed pattern of source line 459,
which is backslash-s star, one lowercase ASCII letter, one uppercase
ASCII letter, one ASCII digit, backslash-s star, one character of the
class less-greater-equal as the only capture group, backslash-s star,
end of string. The match is anchored at both ends, so on success the
whole match (group zero) is the input itself; the returned character is
group one. none models a failed match, where m is None. -/
def matchTokeninfoPat (cs : List Char) : Option Char :=
  match cs.dropWhile isPySpace with
  | a :: b :: d :: rest =>
    if a.isLower && b.isUpper && d.isDigit then
      match rest.dropWhile isPySpace with
      | op :: rest2 =>
        if (op = '<' || op = '>' || op = '=') && (rest2.dropWhile isPySpace).isEmpty then
          some op
        else none
      | [] => none
    else none
  | _ => none

/-- Source lines 458-479: the criterion compilation of the find command
for the tokeninfo option, up to and including the call of
build_tokenvalue_filter. A missing option makes re.match raise
TypeError; a failed match leaves m as None and m.group(0) raises
AttributeError. On a successful match group one is a single character,
so it never equals the two-character operator strings: the equality
branch would raise IndexError because the pattern has no second group,
and in the try block neither assignment runs and no exception is
raised, so the except clause is skipped and the call of
build_tokenvalue_filter reads the unbound local tokeninfo_value, which
raises UnboundLocalError (a NameError). On success the intended result
would be the declared key with the compiled filter list. -/
def findTokeninfoFilter (tokeninfo : Option String) :
    Except PyError (String × List Comparator) :=
  match tokeninfo with
  | none => .error .typeError
  | some s =>
    match matchTokeninfoPat s.toList with
    | none => .error .attributeError
    | some op =>
      if String.mk [op] = "==" then .error .indexError
      else .error (.nameError "tokeninfo_value")

/-- The fixed order in which the filter loop consults its checks,
stated by the specification. -/
def checkOrder : List CheckTag :=
  [.recency, .serialPat, .descrPat, .hasNotKey, .hasKey, .valueFilter, .attrFilter, .orphanState]

/-- Apply a constructed comparator to a value, propagating a
construction failure; used to state evaluation facts about the
comparator a builder returns. -/
def evalConstructed (r : Except PyError Comparator) (v : PyValue) : Except PyError Bool :=
  match r with
  | .error e => .error e
  | .ok c => c v

/-- Sample record used in concrete witnesses. -/
def tokA : Token :=
  { serial := "A1", description := "temp-a",
    tokeninfo := [("last_used", .strV "5")], attrs := [],
    lastAuthNewer := fun _ => false, isOrphaned := false }

/-- Second sample record used in concrete witnesses. -/
def tokB : Token :=
  { serial := "B1", description := "perm-b",
    tokeninfo := [], attrs := [],
    lastAuthNewer := fun _ => false, isOrphaned := true }

/-- Sample record whose last authentication is newer than any
threshold, used in concrete witnesses. -/
def tokNewer : Token :=
  { serial := "N1", description := "new",
    tokeninfo := [], attrs := [],
    lastAuthNewer := fun _ => true, isOrphaned := false }

/-- A comparator that raises on every value, used to show that a check
is decided without consulting the comparators. -/
def raiseCmp : Comparator := fun _ => .error (.clickException "raised")

/-- The comparator compare_greater_than builds from the operand 5,
spelled out for use in concrete witnesses. -/
def cGT5 : Comparator := fun value =>
  match pyIntValue value with
  | some n => .ok (decide (n > (5 : Int)))
  | none => .ok false

/-- The comparator compare_regex_or_equal builds from the operand abc,
spelled out for use in concrete witnesses. -/
def cEqAbc : Comparator := fun value =>
  match value with
  | .intV n =>
    match try_convert_to_integer "abc" with
    | .error e => .error e
    | .ok given_value => .ok (decide (given_value = n))
  | .boolV b =>
    match try_convert_to_integer "abc" with
    | .error e => .error e
    | .ok given_value => .ok (decide (given_value = (if b then 1 else 0)))
  | .strV s => .ok (reSearch "abc" s)

/-- C1: the claim states that a filter expression field OP value with
OP in the set of double-equal, greater-equal, less-equal compiles, for
greater-equal, to AFTER on a temporal field and GT on a numeric one,
and symmetrically for less-equal, with the domain taken from a static
field-to-domain table. The code has no such table and its criterion
parsing raises an exception on every input: a missing option raises
TypeError, an expression of the documented grammar never matches the
regex (AttributeError on m.group), and an input matching the regex
compares the one-character operator group against two-character
operator strings, binds no filter variable and raises
UnboundLocalError. In particular the concrete documented-grammar
input raises AttributeError. -/
theorem C1_find_criterion_compiler_always_raises :
    (∀ ti : Option String, ∃ e, findTokeninfoFilter ti = .error e) ∧
    findTokeninfoFilter (some "mK3 >= 1000") = .error .attributeError := by
  constructor
  · intro ti
    cases ti with
    | none => exact ⟨.typeError, rfl⟩
    | some s =>
      simp only [findTokeninfoFilter]
      split
      · exact ⟨.attributeError, rfl⟩
      · split
        · exact ⟨.indexError, rfl⟩
        · exact ⟨.nameError "tokeninfo_value", rfl⟩
  · rfl

/-- C4: for an operand string that parses as an integer, the compiled
GT predicate returns exactly the comparison int of x greater than int
of v on every integer-coercible field value and false, without raising,
on every non-coercible one; symmetrically for LT. -/
theorem C4_numeric_gt_lt_semantics :
    ∀ (key v : String) (g : Int), pyInt v = some g →
      ∃ cgt clt,
        compare_greater_than key v = .ok cgt ∧
        compare_less_than key v = .ok clt ∧
        ∀ x : PyValue,
          cgt x = .ok (match pyIntValue x with | some n => decide (n > g) | none => false) ∧
          clt x = .ok (match pyIntValue x with | some n => decide (n < g) | none => false) := by
  intro key v g hv
  have hgt : compare_greater_than key v =
      .ok (fun value => match pyIntValue value with
        | some n => .ok (decide (n > g)) | none => .ok false) := by
    simp only [compare_greater_than, try_convert_to_integer, hv]
  have hlt : compare_less_than key v =
      .ok (fun value => match pyIntValue value with
        | some n => .ok (decide (n < g)) | none => .ok false) := by
    simp only [compare_less_than, try_convert_to_integer, hv]
  refine ⟨_, _, hgt, hlt, ?_⟩
  intro x
  cases hx : pyIntValue x with
  | none => constructor <;> simp [hx]
  | some n => constructor <;> simp [hx]

/-- Witness for C4 at the operand 5 and the field value 7. -/
theorem C4_numeric_gt_lt_semantics_witness :
    pyInt "5" = some 5 ∧
    ∃ cgt clt,
      compare_greater_than "k" "5" = .ok cgt ∧
      compare_less_than "k" "5" = .ok clt ∧
      ∀ x : PyValue,
        cgt x = .ok (match pyIntValue x with | some n => decide (n > (5 : Int)) | none => false) ∧
        clt x = .ok (match pyIntValue x with | some n => decide (n < (5 : Int)) | none => false) :=
  ⟨by decide, C4_numeric_gt_lt_semantics "k" "5" 5 (by decide)⟩

/-- C3 counterexample: the equal-or-regex comparator is successfully
constructed from the operand abc (construction performs no coercion),
yet evaluating it on the stored integer value 5 coerces the operand and
raises ClickException at evaluation time, refuting the claim that a
successfully constructed comparator never raises and that operand
errors are raised only at construction. -/
theorem C3_counterexample_eq_raises_at_evaluation :
    evalConstructed (compare_regex_or_equal "k" "abc") (.intV 5) =
      .error (.clickException "Not an integer: abc") := rfl

/-- C3 amended: the GT and LT comparators never raise at evaluation
time on any stored value (field-value coercion failure yields false);
the AFTER and BEFORE comparators never raise on string-typed stored
values (parse failure yields false); but the equal-or-regex comparator
coerces its operand at evaluation time whenever the stored value is an
integer or a boolean and raises ClickException there when the operand
is not an integer, while on string values it performs a total regex
search. -/
theorem C3_amended_comparator_totality :
    (∀ key v c, compare_greater_than key v = .ok c → ∀ x, ∃ b, c x = .ok b) ∧
    (∀ key v c, compare_less_than key v = .ok c → ∀ x, ∃ b, c x = .ok b) ∧
    (∀ key v c, compare_after key v = .ok c → ∀ s, ∃ b, c (.strV s) = .ok b) ∧
    (∀ key v c, compare_before key v = .ok c → ∀ s, ∃ b, c (.strV s) = .ok b) ∧
    (∀ key r c, compare_regex_or_equal key r = .ok c →
       (∀ s, c (.strV s) = .ok (reSearch r s)) ∧
       (pyInt r = none → ∀ n : Int,
          c (.intV n) = .error (.clickException ("Not an integer: " ++ r)))) := by
  refine ⟨?_, ?_, ?_, ?_, ?_⟩
  · intro key v c hc x
    simp only [compare_greater_than, try_convert_to_integer] at hc
    cases hv : pyInt v with
    | none => rw [hv] at hc; cases hc
    | some g =>
      rw [hv] at hc
      injection hc with h
      subst h
      cases hx : pyIntValue x with
      | none => exact ⟨false, by simp [hx]⟩
      | some n => exact ⟨decide (n > g), by simp [hx]⟩
  · intro key v c hc x
    simp only [compare_less_than, try_convert_to_integer] at hc
    cases hv : pyInt v with
    | none => rw [hv] at hc; cases hc
    | some g =>
      rw [hv] at hc
      injection hc with h
      subst h
      cases hx : pyIntValue x with
      | none => exact ⟨false, by simp [hx]⟩
      | some n => exact ⟨decide (n < g), by simp [hx]⟩
  · intro key v c hc s
    simp only [compare_after, try_convert_to_datetime] at hc
    cases hv : dateutilParse v with
    | none => rw [hv] at hc; cases hc
    | some g =>
      rw [hv] at hc
      injection hc with h
      subst h
      cases hx : parse_datetime key s with
      | none => exact ⟨false, by simp [hx]⟩
      | some tt => exact ⟨decide (tt > g), by simp [hx]⟩
  · intro key v c hc s
    simp only [compare_before, try_convert_to_datetime] at hc
    cases hv : dateutilParse v with
    | none => rw [hv] at hc; cases hc
    | some g =>
      rw [hv] at hc
      injection hc with h
      subst h
      cases hx : parse_datetime key s with
      | none => exact ⟨false, by simp [hx]⟩
      | some tt => exact ⟨decide (tt < g), by simp [hx]⟩
  · intro key r c hc
    simp only [compare_regex_or_equal] at hc
    injection hc with h
    subst h
    refine ⟨fun s => rfl, fun hr n => ?_⟩
    simp [try_convert_to_integer, hr]

/-- Witness for C3 amended: the GT comparator built from the operand 5
returns a boolean on the non-coercible stored value seven, and the
equal-or-regex comparator built from the non-integer operand abc raises
on the stored integer 5. -/
theorem C3_amended_comparator_totality_witness :
    compare_greater_than "k" "5" = .ok cGT5 ∧
    (∃ b, cGT5 (.strV "seven") = .ok b) ∧
    compare_regex_or_equal "k" "abc" = .ok cEqAbc ∧
    pyInt "abc" = none ∧
    cEqAbc (.intV 5) = .error (.clickException ("Not an integer: " ++ "abc")) :=
  ⟨rfl,
   C3_amended_comparator_totality.1 "k" "5" cGT5 rfl (.strV "seven"),
   rfl,
   by decide,
   (C3_amended_comparator_totality.2.2.2.2 "k" "abc" cEqAbc rfl).2 (by decide) 5⟩

/-- C7: one operand given to both the AFTER and the BEFORE comparator;
on every field value that parses to a definite instant, exactly one of
the two predicates is true, except when the instant equals the operand
instant, in which case both are false. -/
theorem C7_after_before_trichotomy :
    ∀ (key op x : String) (g t : Instant),
      dateutilParse op = some g →
      parse_datetime key x = some t →
      ∃ a b, compare_after key op = .ok a ∧ compare_before key op = .ok b ∧
        (t = g → a (.strV x) = .ok false ∧ b (.strV x) = .ok false) ∧
        (t ≠ g →
          (a (.strV x) = .ok true ∧ b (.strV x) = .ok false) ∨
          (a (.strV x) = .ok false ∧ b (.strV x) = .ok true)) := by
  intro key op x g t hg ht
  refine ⟨fun value => match value with
            | .strV s => match parse_datetime key s with
              | some tt => .ok (decide (tt > g))
              | none => .ok false
            | _ => .error .typeError,
          fun value => match value with
            | .strV s => match parse_datetime key s with
              | some tt => .ok (decide (tt < g))
              | none => .ok false
            | _ => .error .typeError, ?_, ?_, ?_, ?_⟩
  · simp [compare_after, try_convert_to_datetime, hg]
  · simp [compare_before, try_convert_to_datetime, hg]
  · intro he
    subst he
    simp [ht]
  · intro hne
    rcases lt_trichotomy t g with h | h | h
    · right
      simp [ht, h, not_lt_of_lt h]
    · exact absurd h hne
    · left
      simp [ht, h, not_lt_of_lt h]

/-- Witness for C7 at the operand instant 5 and the field instant 7. -/
theorem C7_after_before_trichotomy_witness :
    dateutilParse "5" = some 5 ∧ parse_datetime "k" "7" = some 7 ∧
    ∃ a b, compare_after "k" "5" = .ok a ∧ compare_before "k" "5" = .ok b ∧
      ((7 : Instant) = 5 → a (.strV "7") = .ok false ∧ b (.strV "7") = .ok false) ∧
      ((7 : Instant) ≠ 5 →
        (a (.strV "7") = .ok true ∧ b (.strV "7") = .ok false) ∨
        (a (.strV "7") = .ok false ∧ b (.strV "7") = .ok true)) :=
  ⟨by decide, by decide,
   C7_after_before_trichotomy "k" "5" "7" 5 7 (by decide) (by decide)⟩

/-- Structural fact: the consulted-check trace a run of the guard
sequence returns is a prefix of the guard tags, and the full tag list
exactly when the record matched. -/
theorem runChecks_trace :
    ∀ (cs : List (CheckTag × Except PyError Bool)) (b : Bool) (tr : List CheckTag),
      runChecks cs = .ok (b, tr) →
      (∃ rest, tr ++ rest = cs.map Prod.fst) ∧ (b = true → tr = cs.map Prod.fst) := by
  intro cs
  induction cs with
  | nil =>
    intro b tr h
    simp only [runChecks] at h
    injection h with h
    injection h with hb htr
    subst hb; subst htr
    exact ⟨⟨[], rfl⟩, fun _ => rfl⟩
  | cons p rest ih =>
    intro b tr h
    obtain ⟨tag, g⟩ := p
    simp only [runChecks] at h
    cases g with
    | error e => cases h
    | ok pass =>
      cases pass with
      | false =>
        simp only at h
        injection h with h
        injection h with hb htr
        subst hb; subst htr
        exact ⟨⟨rest.map Prod.fst, by simp⟩, by simp⟩
      | true =>
        simp only at h
        cases hr : runChecks rest with
        | error e => rw [hr] at h; cases h
        | ok p2 =>
          obtain ⟨b2, tr2⟩ := p2
          rw [hr] at h
          injection h with h
          injection h with hb htr
          subst hb; subst htr
          obtain ⟨⟨r, hrr⟩, hb2⟩ := ih b2 tr2 hr
          refine ⟨⟨r, by simp [hrr]⟩, fun hbt => by simp [hb2 hbt]⟩

/-- Structural fact: the match decision and matched list of the scan
loop do not depend on the progress counters. -/
theorem scanLoop_fst (o : FindOpts) (fs afs : List Comparator) :
    ∀ (ts : List Token) (c f : Nat),
      (scanLoop o fs afs ts c f).1 = selectBatchE o fs afs ts := by
  intro ts
  induction ts with
  | nil => intro c f; rfl
  | cons t rest ih =>
    intro c f
    simp only [scanLoop, selectBatchE]
    cases hm : tokenMatchesE o fs afs t with
    | error e => rfl
    | ok b => cases b <;> simp [ih]

/-- Structural fact: filtering a concatenation of batches equals
concatenating the filtered batches, errors propagating from the first
failing record. -/
theorem selectBatchE_append (o : FindOpts) (fs afs : List Comparator) :
    ∀ xs ys, selectBatchE o fs afs (xs ++ ys) =
      match selectBatchE o fs afs xs with
      | .error e => .error e
      | .ok l1 =>
        match selectBatchE o fs afs ys with
        | .error e => .error e
        | .ok l2 => .ok (l1 ++ l2) := by
  intro xs
  induction xs with
  | nil =>
    intro ys
    cases h : selectBatchE o fs afs ys <;> simp [selectBatchE, h]
  | cons t rest ih =>
    intro ys
    cases hm : tokenMatchesE o fs afs t with
    | error e => simp [selectBatchE, hm]
    | ok b =>
      cases b with
      | false => simp [selectBatchE, hm, ih ys]
      | true =>
        cases h1 : selectBatchE o fs afs rest with
        | error e1 =>
          have h3 := ih ys
          rw [h1] at h3
          simp only at h3
          simp [selectBatchE, hm, h3, h1]
        | ok l1 =>
          cases h2 : selectBatchE o fs afs ys with
          | error e2 =>
            have h3 := ih ys
            rw [h1, h2] at h3
            simp only at h3
            simp [selectBatchE, hm, h3, h1, h2]
          | ok l2 =>
            have h3 := ih ys
            rw [h1, h2] at h3
            simp only at h3
            simp [selectBatchE, hm, h3, h1, h2]

/-- Structural fact: with a positive chunk size and enough fuel,
scanning the chunks and concatenating the per-chunk filtered lists
equals filtering the whole store list. -/
theorem chunked_scan_flatten (o : FindOpts) (fs afs : List Comparator)
    (k : Nat) (hk : 1 ≤ k) :
    ∀ (fuel : Nat) (xs : List Token), xs.length ≤ fuel →
      (mapME (selectBatchE o fs afs) (chunksOfAux k fuel xs)).map List.flatten =
        selectBatchE o fs afs xs := by
  intro fuel
  induction fuel with
  | zero =>
    intro xs hxs
    have hx : xs = [] := List.eq_nil_of_length_eq_zero (Nat.le_zero.mp hxs)
    subst hx
    rfl
  | succ n ih =>
    intro xs hxs
    cases xs with
    | nil => rfl
    | cons x rest =>
      have hsplit := selectBatchE_append o fs afs ((x :: rest).take k) ((x :: rest).drop k)
      rw [List.take_append_drop] at hsplit
      rw [hsplit]
      simp only [chunksOfAux, mapME]
      have hlen : ((x :: rest).drop k).length ≤ n := by
        simp only [List.length_drop, List.length_cons]
        have : rest.length + 1 ≤ n + 1 := by simpa using hxs
        omega
      cases h1 : selectBatchE o fs afs ((x :: rest).take k) with
      | error e => rfl
      | ok l1 =>
        have hrec := ih ((x :: rest).drop k) hlen
        cases h2 : mapME (selectBatchE o fs afs) (chunksOfAux k n ((x :: rest).drop k)) with
        | error e =>
          rw [h2] at hrec
          simp only [Except.map] at hrec
          rw [← hrec]
          rfl
        | ok ls =>
          rw [h2] at hrec
          simp only [Except.map] at hrec
          rw [← hrec]
          simp [Except.map]

/-- C5: for every store state and every chunk size of at least one,
chunked and unchunked scanning yield the same matched records: the
order-preserving concatenation of the per-chunk filtered lists equals
the single filtered list, and a raising record aborts both the same
way. -/
theorem C5_chunked_eq_unchunked :
    ∀ (o : FindOpts) (fs afs : List Comparator) (store : List Token) (k : Nat),
      1 ≤ k →
      (getTokenlist o fs afs store (some k)).map List.flatten =
        (getTokenlist o fs afs store none).map List.flatten := by
  intro o fs afs store k hk
  unfold getTokenlist get_tokens_paginated_generator get_tokens
  have hfun : (fun batch => (scanLoop o fs afs batch 0 0).1) = selectBatchE o fs afs :=
    funext (fun b => scanLoop_fst o fs afs b 0 0)
  rw [hfun]
  rw [chunked_scan_flatten o fs afs k hk store.length store (le_refl _)]
  cases h : selectBatchE o fs afs store <;> simp [mapME, h, Except.map]

/-- Witness for C5 with three records and chunk size two. -/
theorem C5_chunked_eq_unchunked_witness :
    1 ≤ 2 ∧
    (getTokenlist { description := some "temp" } [] [] [tokA, tokB, tokNewer] (some 2)).map List.flatten =
      (getTokenlist { description := some "temp" } [] [] [tokA, tokB, tokNewer] none).map List.flatten :=
  ⟨by decide,
   C5_chunked_eq_unchunked { description := some "temp" } [] [] [tokA, tokB, tokNewer] 2 (by decide)⟩

/-- C6: for every batch and every combination of filter options the
filtered list is a sublist of the batch (a subset preserving the
original relative order), and each record is checked in the fixed order
recency, serial pattern, description pattern, tokeninfo-key presence
and absence, tokeninfo value filter, token-attribute filter, orphan
state: the consulted-check trace is always a prefix of that order, the
full order exactly on a match, so the first failing check excludes the
record and no later check runs. -/
theorem C6_select_sublist_and_check_order :
    ∀ (o : FindOpts) (fs afs : List Comparator),
      (∀ (R l : List Token), selectBatchE o fs afs R = .ok l → l.Sublist R) ∧
      (∀ (t : Token) (b : Bool) (tr : List CheckTag),
        tokenCheckE o fs afs t = .ok (b, tr) →
          (∃ rest, tr ++ rest = checkOrder) ∧ (b = true → tr = checkOrder)) := by
  intro o fs afs
  constructor
  · intro R
    induction R with
    | nil =>
      intro l h
      simp only [selectBatchE] at h
      injection h with h
      subst h
      exact List.Sublist.refl []
    | cons t rest ih =>
      intro l h
      simp only [selectBatchE] at h
      cases hm : tokenMatchesE o fs afs t with
      | error e => rw [hm] at h; cases h
      | ok b =>
        rw [hm] at h
        cases b with
        | false => exact (ih l h).cons t
        | true =>
          cases hr : selectBatchE o fs afs rest with
          | error e => rw [hr] at h; cases h
          | ok l2 =>
            rw [hr] at h
            injection h with h
            subst h
            exact (ih l2 hr).cons₂ t
  · intro t b tr h
    have hmap : (checksOf o fs afs t).map Prod.fst = checkOrder := rfl
    have := runChecks_trace (checksOf o fs afs t) b tr h
    rw [hmap] at this
    exact this

/-- Witness for C6: a concrete batch where the second record is
excluded by the serial check, giving the sublist and the trace that
stops at the serial check. -/
theorem C6_select_sublist_and_check_order_witness :
    [tokA].Sublist [tokA, tokB] ∧
    (∃ rest, [CheckTag.recency, CheckTag.serialPat] ++ rest = checkOrder) :=
  ⟨(C6_select_sublist_and_check_order { serial := some "A" } [] []).1 [tokA, tokB] [tokA] rfl,
   ((C6_select_sublist_and_check_order { serial := some "A" } [] []).2 tokB false
      [CheckTag.recency, CheckTag.serialPat] rfl).1⟩

/-- Structural fact: when every guard before a failing pure check is a
pure boolean, the run returns a negative decision, whatever checks
follow the failing one; in particular none of them is consulted. -/
theorem runChecks_stops_ok_false :
    ∀ (cs1 : List (CheckTag × Except PyError Bool)),
      (∀ p ∈ cs1, ∃ pb, p.2 = Except.ok pb) →
      ∀ (tag : CheckTag) (cs2 : List (CheckTag × Except PyError Bool)),
        ∃ tr, runChecks (cs1 ++ (tag, Except.ok false) :: cs2) = .ok (false, tr) := by
  intro cs1
  induction cs1 with
  | nil => intro _ tag cs2; exact ⟨[tag], rfl⟩
  | cons p rest ih =>
    intro hpure tag cs2
    obtain ⟨t1, g1⟩ := p
    obtain ⟨pb, hpb⟩ := hpure (t1, g1) (List.mem_cons_self _ _)
    simp only at hpb
    subst hpb
    cases pb with
    | false => exact ⟨[t1], rfl⟩
    | true =>
      obtain ⟨tr, htr⟩ := ih (fun q hq => hpure q (List.mem_cons_of_mem _ hq)) tag cs2
      exact ⟨t1 :: tr, by simp [runChecks, htr]⟩

/-- Structural fact: a run over a guard sequence holding a failing pure
check can never return a positive match decision. -/
theorem runChecks_no_match_past_false :
    ∀ (cs1 : List (CheckTag × Except PyError Bool)) (tag : CheckTag)
      (cs2 : List (CheckTag × Except PyError Bool)) (b : Bool) (tr : List CheckTag),
      runChecks (cs1 ++ (tag, Except.ok false) :: cs2) = .ok (b, tr) → b = false := by
  intro cs1
  induction cs1 with
  | nil =>
    intro tag cs2 b tr h
    simp only [List.nil_append, runChecks] at h
    simp only [Except.ok.injEq, Prod.mk.injEq] at h
    exact h.1.symm
  | cons p rest ih =>
    intro tag cs2 b tr h
    obtain ⟨t1, g1⟩ := p
    simp only [List.cons_append, runChecks] at h
    cases g1 with
    | error e => cases h
    | ok pb =>
      cases pb with
      | false =>
        simp only [Except.ok.injEq, Prod.mk.injEq] at h
        exact h.1.symm
      | true =>
        simp only [List.append_eq] at h
        cases hr : runChecks (rest ++ (tag, Except.ok false) :: cs2) with
        | error e => rw [hr] at h; cases h
        | ok p2 =>
          obtain ⟨b2, tr2⟩ := p2
          rw [hr] at h
          simp only [Except.ok.injEq, Prod.mk.injEq] at h
          obtain ⟨hb, _⟩ := h
          subst hb
          exact ih tag cs2 b2 tr2 hr

/-- C9: when a non-empty tokeninfo value filter is active together
with a declared tokeninfo key, every record lacking that key is
excluded with none of the comparators evaluated: the decision is a
clean negative even when every comparator would raise; the analogue
holds for the token-attribute filter, whose decision is then
independent of the attribute comparators and never positive. -/
theorem C9_missing_key_excludes_without_comparators :
    (∀ (o : FindOpts) (kk : String) (t : Token),
       o.tokeninfoKey = some kk → kk ≠ "" → tokeninfoLookup t kk = none →
       ∀ (fs afs : List Comparator), fs ≠ [] →
         tokenMatchesE o fs afs t = .ok false) ∧
    (∀ (o : FindOpts) (ka : String) (t : Token),
       o.tokenattribute = some ka → ka ≠ "" → attrLookup t ka = none →
       ∀ (fs afs afs' : List Comparator), afs ≠ [] → afs' ≠ [] →
         tokenMatchesE o fs afs t = tokenMatchesE o fs afs' t ∧
         ∀ r, tokenMatchesE o fs afs t = .ok r → r = false) := by
  constructor
  · intro o kk t hk hkne hlk fs afs hfs
    have h1 : truthyL fs = true := by
      cases fs with
      | nil => exact absurd rfl hfs
      | cons a l => rfl
    have hval : valueCheckResult o fs t = .ok false := by
      simp [valueCheckResult, h1, hk, truthyO, hkne, hlk]
    have hcs : checksOf o fs afs t =
        [(CheckTag.recency, Except.ok (!(truthyO o.lastAuth && t.lastAuthNewer (o.lastAuth.getD "")))),
         (CheckTag.serialPat, Except.ok (!(truthyO o.serial && !reSearch (o.serial.getD "") t.serial))),
         (CheckTag.descrPat, Except.ok (!(truthyO o.description && !reSearch (o.description.getD "") t.description))),
         (CheckTag.hasNotKey, Except.ok (!(truthyO o.hasNotTokeninfoKey && hasTokeninfo t (o.hasNotTokeninfoKey.getD "")))),
         (CheckTag.hasKey, Except.ok (!(truthyO o.hasTokeninfoKey && !hasTokeninfo t (o.hasTokeninfoKey.getD ""))))] ++
        (CheckTag.valueFilter, Except.ok false) ::
        [(CheckTag.attrFilter, attrCheckResult o afs t),
         (CheckTag.orphanState, Except.ok (orphanPass o t))] := by
      simp [checksOf, hval]
    have hpure : ∀ p : CheckTag × Except PyError Bool, p ∈
        [(CheckTag.recency, Except.ok (!(truthyO o.lastAuth && t.lastAuthNewer (o.lastAuth.getD "")))),
         (CheckTag.serialPat, Except.ok (!(truthyO o.serial && !reSearch (o.serial.getD "") t.serial))),
         (CheckTag.descrPat, Except.ok (!(truthyO o.description && !reSearch (o.description.getD "") t.description))),
         (CheckTag.hasNotKey, Except.ok (!(truthyO o.hasNotTokeninfoKey && hasTokeninfo t (o.hasNotTokeninfoKey.getD "")))),
         (CheckTag.hasKey, Except.ok (!(truthyO o.hasTokeninfoKey && !hasTokeninfo t (o.hasTokeninfoKey.getD ""))))] →
        ∃ pb, p.2 = Except.ok pb := by
      intro p hp
      fin_cases hp <;> exact ⟨_, rfl⟩
    obtain ⟨tr, htr⟩ := runChecks_stops_ok_false _ hpure CheckTag.valueFilter
        [(CheckTag.attrFilter, attrCheckResult o afs t),
         (CheckTag.orphanState, Except.ok (orphanPass o t))]
    unfold tokenMatchesE tokenCheckE
    rw [hcs, htr]
    rfl
  · intro o ka t hk hkne hlk fs afs afs' hafs hafs'
    have h1 : truthyL afs = true := by
      cases afs with
      | nil => exact absurd rfl hafs
      | cons a l => rfl
    have h1' : truthyL afs' = true := by
      cases afs' with
      | nil => exact absurd rfl hafs'
      | cons a l => rfl
    have hattr : attrCheckResult o afs t = .ok false := by
      simp [attrCheckResult, h1, hk, truthyO, hkne, hlk]
    have hattr' : attrCheckResult o afs' t = .ok false := by
      simp [attrCheckResult, h1', hk, truthyO, hkne, hlk]
    have hcs : ∀ bfs, attrCheckResult o bfs t = .ok false → checksOf o fs bfs t =
        [(CheckTag.recency, Except.ok (!(truthyO o.lastAuth && t.lastAuthNewer (o.lastAuth.getD "")))),
         (CheckTag.serialPat, Except.ok (!(truthyO o.serial && !reSearch (o.serial.getD "") t.serial))),
         (CheckTag.descrPat, Except.ok (!(truthyO o.description && !reSearch (o.description.getD "") t.description))),
         (CheckTag.hasNotKey, Except.ok (!(truthyO o.hasNotTokeninfoKey && hasTokeninfo t (o.hasNotTokeninfoKey.getD "")))),
         (CheckTag.hasKey, Except.ok (!(truthyO o.hasTokeninfoKey && !hasTokeninfo t (o.hasTokeninfoKey.getD "")))),
         (CheckTag.valueFilter, valueCheckResult o fs t)] ++
        (CheckTag.attrFilter, Except.ok false) ::
        [(CheckTag.orphanState, Except.ok (orphanPass o t))] := by
      intro bfs hb
      simp [checksOf, hb]
    constructor
    · unfold tokenMatchesE tokenCheckE
      rw [hcs afs hattr, hcs afs' hattr']
    · intro r hr
      unfold tokenMatchesE tokenCheckE at hr
      rw [hcs afs hattr] at hr
      cases hrc : runChecks
          ([(CheckTag.recency, Except.ok (!(truthyO o.lastAuth && t.lastAuthNewer (o.lastAuth.getD "")))),
            (CheckTag.serialPat, Except.ok (!(truthyO o.serial && !reSearch (o.serial.getD "") t.serial))),
            (CheckTag.descrPat, Except.ok (!(truthyO o.description && !reSearch (o.description.getD "") t.description))),
            (CheckTag.hasNotKey, Except.ok (!(truthyO o.hasNotTokeninfoKey && hasTokeninfo t (o.hasNotTokeninfoKey.getD "")))),
            (CheckTag.hasKey, Except.ok (!(truthyO o.hasTokeninfoKey && !hasTokeninfo t (o.hasTokeninfoKey.getD "")))),
            (CheckTag.valueFilter, valueCheckResult o fs t)] ++
           (CheckTag.attrFilter, Except.ok false) ::
           [(CheckTag.orphanState, Except.ok (orphanPass o t))]) with
      | error e => rw [hrc] at hr; cases hr
      | ok p =>
        obtain ⟨b2, tr2⟩ := p
        rw [hrc] at hr
        simp only [Except.map, Except.ok.injEq] at hr
        subst hr
        exact runChecks_no_match_past_false _ _ _ _ _ hrc

/-- Witness for C9: a record without the declared tokeninfo key or
token attribute is cleanly excluded even when every comparator in the
filter raises. -/
theorem C9_missing_key_excludes_without_comparators_witness :
    tokeninfoLookup tokB "last_used" = none ∧
    tokenMatchesE { tokeninfoKey := some "last_used" } [raiseCmp] [] tokB = .ok false ∧
    attrLookup tokB "failcount" = none ∧
    tokenMatchesE { tokenattribute := some "failcount" } [] [raiseCmp] tokB =
      tokenMatchesE { tokenattribute := some "failcount" } [] [raiseCmp, raiseCmp] tokB :=
  ⟨rfl,
   C9_missing_key_excludes_without_comparators.1 { tokeninfoKey := some "last_used" }
     "last_used" tokB rfl (by decide) rfl [raiseCmp] [] (by simp),
   rfl,
   (C9_missing_key_excludes_without_comparators.2 { tokenattribute := some "failcount" }
     "failcount" tokB rfl (by decide) rfl [] [raiseCmp] [raiseCmp, raiseCmp]
     (by simp) (by simp)).1⟩

/-- C10: when the last-authentication age option is supplied, the
recency check excludes exactly the records whose last authentication is
newer than the threshold, and such a record is dropped with only the
recency check consulted, before any other filter; a record passing the
recency check is treated exactly as if the option were absent. -/
theorem C10_recency_check_first_and_exact :
    ∀ (o : FindOpts) (a : String) (t : Token) (fs afs : List Comparator),
      o.lastAuth = some a → a ≠ "" →
      (t.lastAuthNewer a = true →
         tokenCheckE o fs afs t = .ok (false, [CheckTag.recency])) ∧
      (t.lastAuthNewer a = false →
         tokenCheckE o fs afs t = tokenCheckE { o with lastAuth := none } fs afs t) := by
  intro o a t fs afs hla hane
  obtain ⟨la, se, de, hnk, hky, tik, ta, orp⟩ := o
  simp only at hla
  subst hla
  have hbe : (a == "") = false := by
    simp only [beq_eq_false_iff_ne, ne_eq]
    exact hane
  constructor
  · intro hn
    simp [tokenCheckE, checksOf, runChecks, truthyO, hbe, hn]
  · intro hn
    simp [tokenCheckE, checksOf, truthyO, hbe, hn, valueCheckResult, attrCheckResult, orphanPass]

/-- Witness for C10: a record with a fresh last authentication is
excluded by the recency check alone. -/
theorem C10_recency_check_first_and_exact_witness :
    tokNewer.lastAuthNewer "10d" = true ∧
    tokenCheckE { lastAuth := some "10d" } [] [] tokNewer = .ok (false, [CheckTag.recency]) :=
  ⟨rfl,
   (C10_recency_check_first_and_exact { lastAuth := some "10d" } "10d" tokNewer [] []
      rfl (by decide)).1 rfl⟩

/-- C2 counterexample: a per-record failure of the external
set_description call aborts the whole set_description run as an
uncaught error instead of being recorded and skipped, refuting the
claim that every mutating action isolates per-record errors. -/
theorem C2_counterexample_set_description_aborts :
    runSetDescription (fun _ => .error "boom") (fun _ => .ok ()) (some "d") [[tokA, tokB]] =
      .error "boom" := rfl

/-- C2 amended: the caught mutating actions disable, delete, unassign
and tokenrealms isolate per-record errors: whatever the per-record
operation does, every record of the stream yields its own outcome, in
order, and the run never aborts; but set_description, set_tokeninfo and
delete_tokeninfo have no per-record handler, so their first per-record
error aborts the run with the remaining records unprocessed. -/
theorem C2_amended_failure_isolation :
    (∀ (op : Token → Except String Unit) (gen : List (List Token)),
       (runDisableOutcomes op gen).map Outcome.serial = gen.flatten.map Token.serial) ∧
    (∀ (op : Token → Except String Unit) (gen : List (List Token)),
       (runDeleteOutcomes op gen).map Outcome.serial = gen.flatten.map Token.serial) ∧
    (∀ (op : Token → Except String Unit) (gen : List (List Token)),
       (runUnassignOutcomes op gen).map Outcome.serial = gen.flatten.map Token.serial) ∧
    (∀ gen : List (List Token), (runTokenrealms gen).length = 2 * gen.flatten.length) ∧
    runSetDescription (fun _ => .error "boom") (fun _ => .ok ()) (some "d") [[tokA, tokB]] =
      .error "boom" ∧
    runSetTokeninfo (fun _ _ _ => .error "boom") (fun _ => .ok ()) "v:k" [[tokA, tokB]] =
      .error "boom" ∧
    runDeleteTokeninfo (fun _ _ => .error "boom") (fun _ => .ok ()) "k" [[tokA, tokB]] =
      .error "boom" := by
  have hgen : ∀ (msg : String) (op : Token → Except String Unit) (l : List Token),
      (l.map (perRecordCaught msg op)).map Outcome.serial = l.map Token.serial := by
    intro msg op l
    induction l with
    | nil => rfl
    | cons t rest ih =>
      simp only [List.map_cons, ih]
      cases h : op t <;> simp [perRecordCaught, h]
  refine ⟨?_, ?_, ?_, ?_, rfl, rfl, rfl⟩
  · intro op gen; exact hgen _ op gen.flatten
  · intro op gen; exact hgen _ op gen.flatten
  · intro op gen; exact hgen _ op gen.flatten
  · intro gen
    unfold runTokenrealms
    generalize gen.flatten = l
    induction l with
    | nil => rfl
    | cons t rest ih =>
      simp only [List.map_cons, List.flatten_cons, List.length_append, List.length_cons, ih]
      simp [tokenrealmsStep]
      omega

/-- Structural fact: every write the scan loop emits goes to the error
stream. -/
theorem scanLoop_writes_stderr (o : FindOpts) (fs afs : List Comparator) :
    ∀ (ts : List Token) (c f : Nat) (w : Write),
      w ∈ (scanLoop o fs afs ts c f).2 → w.chan = Chan.stderr := by
  intro ts
  induction ts with
  | nil =>
    intro c f w hw
    simp only [scanLoop, List.mem_cons, List.mem_singleton] at hw
    rcases hw with h | h | h
    · rw [h]
    · rw [h]
    · cases h
  | cons t rest ih =>
    intro c f w hw
    cases hm : tokenMatchesE o fs afs t with
    | error e =>
      simp only [scanLoop, hm, List.mem_singleton] at hw
      rw [hw]
    | ok b =>
      cases b with
      | true =>
        simp only [scanLoop, hm, List.mem_cons] at hw
        rcases hw with h | h
        · rw [h]
        · exact ih (c + 1) (f + 1) w h
      | false =>
        simp only [scanLoop, hm, List.mem_cons] at hw
        rcases hw with h | h
        · rw [h]
        · exact ih (c + 1) f w h

/-- C8 counterexample: a per-record failure during the disable action
prints its diagnostic lines on standard output, not the error stream,
refuting the claim that all per-record failure diagnostics go to the
error stream only. -/
theorem C8_counterexample_failure_diagnostic_on_stdout :
    runDisable (fun _ => .error "boom") [[tokA]] =
      [⟨Chan.stdout, "Failed to process token A1.\n"⟩, ⟨Chan.stdout, "boom\n"⟩] := rfl

/-- C8 amended: the scan stage writes all of its progress and
diagnostic text to the error stream, but the mutating action stage
prints everything, its per-record progress and its per-record failure
diagnostics alike, to standard output. -/
theorem C8_amended_stream_separation :
    (∀ (o : FindOpts) (fs afs : List Comparator) (batch : List Token) (w : Write),
       w ∈ scanChunkWrites o fs afs batch → w.chan = Chan.stderr) ∧
    (∀ (op : Token → Except String Unit) (gen : List (List Token)) (w : Write),
       w ∈ runDisable op gen → w.chan = Chan.stdout) := by
  constructor
  · intro o fs afs batch w hw
    rcases List.mem_cons.mp hw with h | h
    · rw [h]
    · exact scanLoop_writes_stderr o fs afs batch 0 0 w h
  · intro op gen w hw
    unfold runDisable at hw
    rw [List.mem_flatten] at hw
    obtain ⟨ws, hws, hwmem⟩ := hw
    rw [List.mem_map] at hws
    obtain ⟨oc, _, rfl⟩ := hws
    unfold outcomeWrites at hwmem
    by_cases h : oc.success
    · rw [if_pos h] at hwmem
      rw [List.mem_singleton] at hwmem
      rw [hwmem]
    · rw [if_neg h] at hwmem
      rcases List.mem_cons.mp hwmem with h2 | h2
      · rw [h2]
      · rw [List.mem_singleton] at h2
        rw [h2]

/-- Witness for C8 amended: the scan header goes to the error stream
and a concrete failure diagnostic of the disable action goes to
standard output. -/
theorem C8_amended_stream_separation_witness :
    (Write.mk Chan.stderr "++ Creating token object list.\n" ∈ scanChunkWrites {} [] [] []) ∧
    (Write.mk Chan.stderr "++ Creating token object list.\n").chan = Chan.stderr ∧
    (Write.mk Chan.stdout "boom\n" ∈ runDisable (fun _ => .error "boom") [[tokA]]) ∧
    (Write.mk Chan.stdout "boom\n").chan = Chan.stdout :=
  ⟨List.mem_cons_self _ _,
   C8_amended_stream_separation.1 {} [] [] [] _ (List.mem_cons_self _ _),
   by decide,
   C8_amended_stream_separation.2 (fun _ => .error "boom") [[tokA]] _ (by decide)⟩

end Janitor
